import Mathlib

/-!
Verification development for the pearprogramming recommendation service.

The definitions below are a shallow embedding of the Python sources:
  - api/app/services/context_aggregator.py  (ContextAggregator)
  - api/app/services/activity_suggestion_generator.py  (ActivitySuggestionGenerator)
  - api/app/services/llm.py  (LLM.generate_event_suggestions)
  - api/app/services/scrapers/festivals_api.py  (score_event)
  - api/app/schemas/events.py  (Event schema)
  - api/app/data/mock_events.py  (MOCK_EVENTS, get_mock_events)
  - api/app/main.py  (event_stream_generator)

Python floats are modelled as exact rationals, machine time stamps as
naturals, dict-based caches as association lists, and exceptions as
`Except String`.  Network calls are modelled by passing their outcome
(success payload or raised-exception message) as an explicit argument.
-/

set_option maxRecDepth 8000

/-! ## String helpers (Python `in`, `str.lower`, `str.strip`, `re.split`) -/

/-- Boolean test that the first character list starts the second. -/
def charListStartsWith : List Char → List Char → Bool
  | [], _ => true
  | _ :: _, [] => false
  | a :: as, b :: bs => a == b && charListStartsWith as bs

/-- Boolean substring test on character lists (Python `token in text`). -/
def charListHasSub (needle : List Char) : List Char → Bool
  | [] => charListStartsWith needle []
  | c :: rest => charListStartsWith needle (c :: rest) || charListHasSub needle rest

/-- Python `token in text` substring containment. -/
def strContains (text token : String) : Bool :=
  charListHasSub token.toList text.toList

/-- Python `str.lower` (ASCII; the repository data is ASCII plus emoji,
which `lower` leaves unchanged). -/
def strLower (s : String) : String := String.mk (s.toList.map Char.toLower)

/-- Python `str.strip`: drop surrounding whitespace. -/
def pyStrip (s : String) : String :=
  String.mk (((s.toList.dropWhile Char.isWhitespace).reverse.dropWhile Char.isWhitespace).reverse)

/-- Membership in the regex class `\w` (ASCII fragment, as used by the
preference strings in this repository). -/
def isWordChar (c : Char) : Bool := c.isAlphanum || c == '_'

/-- Worker for `splitNonWord`: accumulate maximal runs of word characters. -/
def wordRunsAux : List Char → List Char → List String
  | [], acc => if acc.isEmpty then [] else [String.mk acc.reverse]
  | c :: cs, acc =>
    if isWordChar c then wordRunsAux cs (c :: acc)
    else if acc.isEmpty then wordRunsAux cs []
    else String.mk acc.reverse :: wordRunsAux cs []

/-- Python `re.split(r"[^\w]+", s)` restricted to its non-empty results
(the callers filter out empty tokens immediately). -/
def splitNonWord (s : String) : List String := wordRunsAux s.toList []

/-! ## Python `round(x, 1)` (round-half-even to one decimal) -/

/-- Round to the nearest integer, ties to even (Python `round`). -/
def roundHalfEven (x : ℚ) : ℤ :=
  let f := ⌊x⌋
  let r := x - f
  if r < 1/2 then f
  else if 1/2 < r then f + 1
  else if f % 2 = 0 then f else f + 1

/-- Python `round(x, 1)`. -/
def pyRound1 (x : ℚ) : ℚ := (roundHalfEven (x * 10) : ℚ) / 10

/-! ## `api/app/schemas/events.py` -/

/-- Model of `Location` (schemas/events.py): a 2D coordinate. -/
structure Location where
  x : ℚ
  y : ℚ
deriving DecidableEq, Repr

/-- Model of `Event` (schemas/events.py): a suggested activity.  The pydantic model
requires `location` (a present 2D coordinate) and validates
`event_score` with `ge=0, le=10`; validation is `validateEvent` below. -/
structure Event where
  location : Location
  name : String
  emoji : String
  event_score : ℚ
  description : String
  link : Option String := none
deriving DecidableEq, Repr

/-- Constructing an `Event` through the pydantic schema: the score bounds
`ge=0, le=10` are checked; a violating payload is rejected.  The
`location` field is mandatory, so every validated event carries one. -/
def validateEvent (location : Location) (name emoji : String) (event_score : ℚ)
    (description : String) (link : Option String) : Option Event :=
  if 0 ≤ event_score ∧ event_score ≤ 10 then
    some { location, name, emoji, event_score, description, link }
  else
    none

/-! ## `api/app/data/mock_events.py` -/

/-- Transcription of `MOCK_EVENTS` (data/mock_events.py). -/
def MOCK_EVENTS : List Event :=
  [ { name := "Sunrise Arthurs Seat Hike"
    , description := "Catch the sunrise over Edinburgh with a guided early morning climb."
    , emoji := "🌄"
    , location := { x := 1.5, y := -1.2 }
    , event_score := 9.2
    , link := some "https://www.visitscotland.com/info/events/edinburgh-sunrise-hike-p123456" }
  , { name := "Leith Street Food Market"
    , description := "Sample dishes from 20+ local vendors, live music, and craft stalls."
    , emoji := "🍜"
    , location := { x := 0.3, y := 1.8 }
    , event_score := 8.7
    , link := some "https://edinburghmarkets.com/leith-street-food" }
  , { name := "Meadows Community Yoga"
    , description := "Free outdoor yoga session suitable for all levels - bring a mat!"
    , emoji := "🧘"
    , location := { x := 0.2, y := -0.8 }
    , event_score := 8.1
    , link := some "https://facebook.com/events/edinburgh-meadows-yoga" }
  , { name := "Portobello Beach Cleanup"
    , description := "Join local volunteers to help clean the shoreline followed by coffee."
    , emoji := "🧹"
    , location := { x := 8.0, y := 0.2 }
    , event_score := 8.9
    , link := some "https://keepedinburghbeautiful.org/portobello-cleanup" }
  , { name := "Stockbridge Farmers Market"
    , description := "Weekly market with artisan produce, fresh bakes, and local crafts."
    , emoji := "🧺"
    , location := { x := -1.2, y := 0.8 }
    , event_score := 8.4
    , link := some "https://stockbridgefarmersmarket.co.uk" }
  , { name := "Water of Leith Cycle"
    , description := "Guided family-friendly cycle along Water of Leith walkway."
    , emoji := "🚴"
    , location := { x := -1.8, y := 0.5 }
    , event_score := 7.8 }
  , { name := "Calton Hill Sketch Walk"
    , description := "Urban sketching meetup—bring pencils and capture the skyline."
    , emoji := "✏️"
    , location := { x := 0.8, y := 0.3 }
    , event_score := 8.0 }
  , { name := "Grassmarket Storytelling Night"
    , description := "Local storytellers share Scottish folklore by candlelight."
    , emoji := "📖"
    , location := { x := -0.5, y := -0.3 }
    , event_score := 8.6 } ]

/-- Model of `get_mock_events(limit)` (data/mock_events.py):
`MOCK_EVENTS[:max(0, limit)]`. -/
def get_mock_events (limit : ℤ) : List Event :=
  MOCK_EVENTS.take (max 0 limit).toNat

/-! ## `api/app/services/activity_suggestion_generator.py` -/

/-- Model of `_tokenize_preferences(preferences)`: split the lowered string on
non-word characters and keep tokens longer than two characters.
`None` and the empty string give `[]`. -/
def tokenize_preferences (preferences : Option String) : List String :=
  match preferences with
  | none => []
  | some p =>
    if p == "" then []
    else (splitNonWord (strLower p)).filter (fun t => t.length > 2)

/-- Model of `_match_ratio(text, tokens)`: fraction of tokens contained in `text`. -/
def match_strength (text : String) (tokens : List String) : ℚ :=
  if tokens.isEmpty then 0
  else (tokens.countP (fun t => strContains text t) : ℚ) / tokens.length

/-- Model of `_score_with_preferences(baseline, match_ratio)`: blend the baseline
score with the preference alignment signal, clamp to [0,10], round to one
decimal. -/
def score_with_preferences (baseline : ℚ) (ratio : ℚ) : ℚ :=
  let adjusted :=
    if ratio ≤ 0 then baseline * 0.3 + 2.0
    else baseline * 0.3 + (3.0 + 7.0 * ratio) * 0.7
  pyRound1 (max 0.0 (min 10.0 adjusted))

/-- The text a candidate is matched against:
`f"{event.name} {event.description}".lower()`. -/
def eventMatchText (event : Event) : String :=
  strLower (event.name ++ " " ++ event.description)

/-- Rescoring step of the mock branch of `generate_suggestions`. -/
def rescoreEvent (tokens : List String) (event : Event) : Event :=
  { event with
    event_score := score_with_preferences event.event_score (match_strength (eventMatchText event) tokens) }

/-- Insert into a descending-by-score list, keeping earlier elements first
on ties (the stability contract of Python `list.sort(reverse=True)`). -/
def insertByScoreDesc (e : Event) : List Event → List Event
  | [] => [e]
  | x :: xs =>
    if e.event_score < x.event_score then x :: insertByScoreDesc e xs
    else e :: x :: xs

/-- Model of `events.sort(key=..., reverse=True)`:
stable descending sort by score. -/
def sortByScoreDesc : List Event → List Event
  | [] => []
  | e :: rest => insertByScoreDesc e (sortByScoreDesc rest)

/-! ## `api/app/services/llm.py` -/

/-- Outcome of one `structured_chain.invoke` for a given model name and
`max_events` value (network call: success payload or raised message). -/
abbrev ModelAttempt := String → Nat → Except String (List Event)

/-- Loop body of `LLM.generate_event_suggestions`: try each candidate
model once, remembering the last error; a success returns
`list(result.events)` unchanged (note: `max_events` is only interpolated
into the prompt, never applied to the result).  With all candidates
failed, raise the terminal `RuntimeError`. -/
def generate_event_suggestions_go (attempt : ModelAttempt) (max_events : Nat) :
    List String → Option String → Except String (List Event)
  | [], last_error =>
    .error ("All configured OpenAI models failed. Last error: " ++ last_error.getD "Unknown error")
  | model_name :: rest, last_error =>
    match attempt model_name max_events with
    | .ok result => .ok result
    | .error exc => generate_event_suggestions_go attempt max_events rest (some exc)

/-- Model of `LLM.generate_event_suggestions(context, max_events)`
(llm.py lines 56-85), parametrised by the ordered model candidate list
and by each attempt outcome. -/
def generate_event_suggestions (model_candidates : List String) (attempt : ModelAttempt)
    (max_events : Nat) : Except String (List Event) :=
  generate_event_suggestions_go attempt max_events model_candidates none

/-- The models actually attempted by `generate_event_suggestions`
(in order): the loop stops after the first success. -/
def attemptedModels (attempt : ModelAttempt) (max_events : Nat) : List String → List String
  | [] => []
  | model_name :: rest =>
    match attempt model_name max_events with
    | .ok _ => [model_name]
    | .error _ => model_name :: attemptedModels attempt max_events rest

/-! ## `api/app/services/scrapers/festivals_api.py` -/

/-- The fields of a festivals-API item consulted by `_score_event`:
`status`, truthiness of `disabled`, and the truthiness of each entry of
an optional `warnings` list. -/
structure FestivalItem where
  status : Option String
  disabled : Bool
  warnings : Option (List Bool)
deriving DecidableEq, Repr

/-- Model of `_score_event(item)` (festivals_api.py lines 208-216). -/
def score_event (item : FestivalItem) : ℚ :=
  let base_score : ℚ := if item.status == some "active" then 8.0 else 5.0
  let base_score := if item.disabled then base_score - 2.0 else base_score
  let base_score :=
    match item.warnings with
    | some warnings => if warnings.any id then base_score - 0.5 else base_score
    | none => base_score
  max 0.0 (min 10.0 base_score)

/-! ## `api/app/services/context_aggregator.py` — caches -/

/-- Weather payload fields returned by `_fetch_weather_from_api`. -/
structure WeatherFields where
  temperature : Option ℚ
  feels_like : Option ℚ
  humidity : Option ℚ
  wind_speed : Option ℚ
  percent_cloudiness : Option ℚ
  rain_mm_per_h : Option ℚ
  snow_mm_per_h : Option ℚ
deriving DecidableEq, Repr

/-- Weather payload as cached and returned by
`get_todays_weather_forecast`: the fetched fields plus the
`"date"` entry added before caching. -/
structure WeatherPayloadWithDate where
  fields : WeatherFields
  date : String
deriving DecidableEq, Repr

/-- Weather cache key: `(city, country_code, target_date.isoformat())`. -/
abbrev WeatherCacheKey := String × String × String

/-- The module-level `_WEATHER_CACHE` dict: key to
`(insertion timestamp, payload)`. -/
abbrev WeatherCache := List (WeatherCacheKey × (Nat × WeatherPayloadWithDate))

/-- Festival events payload (`FestivalEventsPayload` TypedDict). -/
structure FestivalEventsPayload where
  date : String
  events : List Event
deriving DecidableEq, Repr

/-- Festival cache key:
`(target_date.isoformat(), festival_identifier, festival_limit)`. -/
abbrev FestivalCacheKey := String × Option String × Option ℤ

/-- The module-level `_FESTIVAL_CACHE` dict. -/
abbrev FestivalCache := List (FestivalCacheKey × (Nat × FestivalEventsPayload))

/-- Dict store `cache[key] = value`: later entries shadow earlier ones. -/
def storeEntry {κ ν : Type} [BEq κ] (cache : List (κ × ν)) (k : κ) (v : ν) : List (κ × ν) :=
  (k, v) :: cache.filter (fun p => !(p.1 == k))

/-- Time-to-live of a weather cache entry (10 minutes). -/
def WEATHER_CACHE_TTL_SECONDS : ℕ := 600

/-- Time-to-live of a festival cache entry (30 minutes). -/
def FESTIVAL_CACHE_TTL_SECONDS : ℕ := 1800

/-- Model of `ContextAggregator.get_todays_weather_forecast` (lines
73-94).  `now` is `time.monotonic()` at entry, `fetchOutcome` the result
of `_fetch_weather_from_api` (payload or raised message).  Returns the
payload, the updated `_WEATHER_CACHE`, and how many times the fetch ran. -/
def get_todays_weather_forecast (cache : WeatherCache) (city country_code date_iso : String)
    (now : ℕ) (fetchOutcome : Except String WeatherFields) :
    Except String (WeatherPayloadWithDate × WeatherCache × ℕ) :=
  let cache_key : WeatherCacheKey := (city, country_code, date_iso)
  let hit : Option WeatherPayloadWithDate :=
    match cache.lookup cache_key with
    | some (t, payload) => if now - t < WEATHER_CACHE_TTL_SECONDS then some payload else none
    | none => none
  match hit with
  | some payload => .ok (payload, cache, 0)
  | none =>
    match fetchOutcome with
    | .error exc => .error exc
    | .ok weather_payload =>
      let weather_payload_with_date : WeatherPayloadWithDate :=
        { fields := weather_payload, date := date_iso }
      .ok (weather_payload_with_date,
           storeEntry cache cache_key (now, weather_payload_with_date), 1)

/-- Model of `ContextAggregator._get_festival_events_cached` (lines
250-276), same shape as the weather getter with its own key and TTL. -/
def get_festival_events_cached (cache : FestivalCache) (date_iso : String)
    (festival_identifier : Option String) (festival_limit : Option ℤ) (now : ℕ)
    (fetchOutcome : Except String FestivalEventsPayload) :
    Except String (FestivalEventsPayload × FestivalCache × ℕ) :=
  let cache_key : FestivalCacheKey := (date_iso, festival_identifier, festival_limit)
  let hit : Option FestivalEventsPayload :=
    match cache.lookup cache_key with
    | some (t, payload) => if now - t < FESTIVAL_CACHE_TTL_SECONDS then some payload else none
    | none => none
  match hit with
  | some payload => .ok (payload, cache, 0)
  | none =>
    match fetchOutcome with
    | .error exc => .error exc
    | .ok events => .ok (events, storeEntry cache cache_key (now, events), 1)

/-! ## `api/app/services/context_aggregator.py` — `gather_context` -/

/-- An Eventbrite-scraped event dict (opaque key-value record; the
aggregator stores these verbatim). -/
abbrev EventbriteItem := List (String × String)

/-- Runtime environment of one `gather_context` call: whether the
Eventbrite scraper import succeeded, and the outcome of each of the three
provider futures (`future.result()` value or raised message). -/
structure GatherEnv where
  eventbriteScraperAvailable : Bool
  weatherOutcome : Except String WeatherPayloadWithDate
  festivalOutcome : Except String FestivalEventsPayload
  eventbriteOutcome : Except String (List EventbriteItem)

/-- The Context Bundle: the dict returned by `gather_context` (lines
182-195).  Its fields are exactly the dict keys; in particular there are
only two error fields, `weather_error` and `eventbrite_error` — the dict
has no festival error entry. -/
structure ContextBundle where
  date : String
  preferences : String
  preferences_raw : String
  preferences_normalized : String
  preference_keywords : List String
  has_preferences : Bool
  city : String
  weather : Option WeatherPayloadWithDate
  weather_error : Option String
  festival_events : FestivalEventsPayload
  eventbrite_events : List EventbriteItem
  eventbrite_error : Option String
deriving DecidableEq, Repr

/-- The keys of the dict returned by `gather_context`, in source order. -/
def contextBundleFieldNames : List String :=
  [ "date", "preferences", "preferences_raw", "preferences_normalized"
  , "preference_keywords", "has_preferences", "city", "weather", "weather_error"
  , "festival_events", "eventbrite_events", "eventbrite_error" ]

/-- Model of `ContextAggregator._extract_preference_keywords`. -/
def extract_preference_keywords (preferences : String) : List String :=
  if preferences == "" then []
  else (splitNonWord (strLower preferences)).filter (fun t => t.length > 2)

/-- Model of `ContextAggregator.gather_context` (lines 96-195).
The three provider calls are isolated: each `future.result()` is wrapped
in its own `try`.  A weather failure records `(None, str(exc))`; an
Eventbrite failure records `([], str(exc))`; a festival failure is only
logged — the default empty payload is kept and no error is stored.  The
only raise is the `RuntimeError` when the Eventbrite scraper import is
unavailable, checked before any future is dispatched. -/
def gather_context (env : GatherEnv) (response_preferences : Option String)
    (target_date_iso : String) (default_city : String) : Except String ContextBundle :=
  let raw_preferences := pyStrip (response_preferences.getD "")
  let normalized_preferences := strLower raw_preferences
  let preference_keywords := extract_preference_keywords raw_preferences
  if !env.eventbriteScraperAvailable then
    .error "Eventbrite scraper is unavailable. Install and configure the scraper dependency."
  else
    let weatherPair : Option WeatherPayloadWithDate × Option String :=
      match env.weatherOutcome with
      | .ok w => (some w, none)
      | .error exc => (none, some exc)
    let festival_events : FestivalEventsPayload :=
      match env.festivalOutcome with
      | .ok payload => payload
      | .error _ => { date := target_date_iso, events := [] }
    let eventbritePair : List EventbriteItem × Option String :=
      match env.eventbriteOutcome with
      | .ok evs => (evs, none)
      | .error exc => ([], some exc)
    .ok
      { date := target_date_iso
      , preferences := normalized_preferences
      , preferences_raw := raw_preferences
      , preferences_normalized := normalized_preferences
      , preference_keywords := preference_keywords
      , has_preferences := raw_preferences != ""
      , city := default_city
      , weather := weatherPair.1
      , weather_error := weatherPair.2
      , festival_events := festival_events
      , eventbrite_events := eventbritePair.1
      , eventbrite_error := eventbritePair.2 }

/-! ## `ActivitySuggestionGenerator.generate_suggestions` -/

/-- Configuration and external outcomes of one
`ActivitySuggestionGenerator.generate_suggestions` call. -/
structure GeneratorEnv where
  mock_mode_enabled : Bool
  llm_available : Bool
  gatherEnv : GatherEnv
  target_date_iso : String
  model_candidates : List String
  attempt : ModelAttempt

/-- Model of `ActivitySuggestionGenerator.generate_suggestions(
number_events, response_preferences)` (lines 41-72).  In mock mode the
candidate pool is truncated to `number_events` first, then rescored and
sorted when preference tokens exist.  Otherwise the LLM path gathers
context and calls `generate_event_suggestions`. -/
def generate_suggestions (genv : GeneratorEnv) (number_events : ℕ)
    (response_preferences : Option String) : Except String (List Event) :=
  if genv.mock_mode_enabled then
    let events := get_mock_events (number_events : ℤ)
    let tokens := tokenize_preferences response_preferences
    if tokens.isEmpty then .ok events
    else .ok (sortByScoreDesc (events.map (rescoreEvent tokens)))
  else if !genv.llm_available then
    .error "LLM backend is unavailable. Install the required dependencies or run the API with MOCK=1."
  else
    match gather_context genv.gatherEnv response_preferences genv.target_date_iso "Edinburgh" with
    | .error exc => .error exc
    | .ok _context =>
      generate_event_suggestions genv.model_candidates genv.attempt number_events

/-! ## `api/app/main.py` — the streaming endpoint -/

/-- Request body of the recommendation endpoints
(`GetEventRecommendationsRequest`): `number_events` validated to [1,25]
before any work begins, plus optional preferences. -/
structure RecommendationRequest where
  number_events : ℕ
  response_preferences : Option String
deriving DecidableEq, Repr

/-- Serialized event sent in the `complete` payload: the event fields
with `location` flattened to an `[x, y]` pair. -/
structure SerializedEvent where
  name : String
  emoji : String
  event_score : ℚ
  description : String
  link : Option String
  location : ℚ × ℚ
deriving DecidableEq, Repr

/-- Serialization step of the stream generator (main.py lines 225-245). -/
def serializeEvent (e : Event) : SerializedEvent :=
  { name := e.name, emoji := e.emoji, event_score := e.event_score
  , description := e.description, link := e.link
  , location := (e.location.x, e.location.y) }

/-- One Server-Sent Event as emitted by `send_event(event_type, data)`:
the SSE `event:` name plus the JSON payload fields used by the stream. -/
structure SSEEvent where
  kind : String
  status : String
  message : String
  progressPct : Option ℕ := none
  events : List SerializedEvent := []
deriving DecidableEq, Repr

/-- Terminal SSE kinds: `complete` and `error` close the stream. -/
def SSEEvent.isTerminal (e : SSEEvent) : Bool :=
  e.kind == "complete" || e.kind == "error"

/-- The methods defined on `ContextAggregator`
(context_aggregator.py lines 70-277) — note that
`gather_context_streaming` is not among them. -/
def contextAggregatorMethods : List String :=
  [ "get_todays_weather_forecast", "gather_context", "_extract_preference_keywords"
  , "_fetch_weather_from_api", "_get_festival_events_cached" ]

/-- Whether `aggregator.gather_context_streaming` resolves: attribute
lookup on the aggregator object, `AttributeError` otherwise. -/
def hasGatherContextStreaming : Bool :=
  contextAggregatorMethods.contains "gather_context_streaming"

/-- Message of the `AttributeError` raised by the attribute lookup
`aggregator.gather_context_streaming` (main.py line 101). -/
def attributeErrorMessage : String :=
  "ContextAggregator object has no attribute gather_context_streaming"

/-- Number of non-self parameters of
`ActivitySuggestionGenerator.generate_suggestions`
(activity_suggestion_generator.py lines 41-43):
`number_events` and `response_preferences`. -/
def generateSuggestionsParamCount : ℕ := 2

/-- Number of positional arguments the stream generator passes to
`generator.generate_suggestions` via `executor.submit` (main.py lines
141-146): `number_events`, `response_preferences`, `gathered_context`. -/
def streamGenerateSuggestionsArgCount : ℕ := 3

/-- Message of the `TypeError` raised when `generate_suggestions` is
called with three positional arguments. -/
def typeErrorMessage : String :=
  "generate_suggestions takes 3 positional arguments but 4 were given"

/-- The fixed ladder of synthetic progress steps (main.py lines 153-161). -/
def progressLadder : List (ℕ × String) :=
  [ (65, "Understanding context...")
  , (70, "Reviewing available events...")
  , (75, "Filtering relevant activities...")
  , (80, "Matching preferences to events...")
  , (85, "Scoring event matches...")
  , (90, "Ranking recommendations...")
  , (95, "Finalizing suggestions...") ]

/-- Environment of one stream execution: the progress events the missing
`gather_context_streaming` method would have yielded, and the outcome a
correctly-invoked `generate_suggestions` call would have had.  Both are
only consulted on branches the control flow cannot actually reach. -/
structure StreamEnv where
  gatherProgressEvents : List SSEEvent
  genOutcome : Except String (List Event)

/-- Model of `event_stream_generator` (main.py lines 68-282).  The whole
body runs inside one `try`; any raise is converted by the `except` block
into a single `error` event, after which the generator returns.  The
first statement after the `started` event resolves
`aggregator.gather_context_streaming`, which raises `AttributeError`
since `ContextAggregator` has no such method; were it present, the
generation step would still raise a `TypeError` by passing three
positional arguments to the two-parameter `generate_suggestions`. -/
def event_stream_generator (_req : RecommendationRequest) (env : StreamEnv) : List SSEEvent :=
  let started : SSEEvent :=
    { kind := "progress", status := "started", message := "Starting event search..."
    , progressPct := some 0 }
  let mkError (msg : String) : SSEEvent :=
    { kind := "error", status := "error"
    , message := "Error generating recommendations: " ++ msg }
  if hasGatherContextStreaming then
    -- Unreachable in the actual program; modelled to follow main.py.
    let analyzing : SSEEvent :=
      { kind := "progress", status := "generating", message := "Analyzing your preferences..."
      , progressPct := some 60 }
    let ladder : List SSEEvent := progressLadder.map (fun step =>
      { kind := "progress", status := "generating", message := step.2
      , progressPct := some step.1 })
    let genResult : Except String (List Event) :=
      if streamGenerateSuggestionsArgCount == generateSuggestionsParamCount then env.genOutcome
      else .error typeErrorMessage
    match genResult with
    | .ok events =>
      started :: env.gatherProgressEvents ++ [analyzing] ++ ladder ++
        [ { kind := "progress", status := "generating", message := "Preparing results..."
          , progressPct := some 96 }
        , { kind := "progress", status := "generating", message := "Packaging recommendations..."
          , progressPct := some 98 }
        , { kind := "complete", status := "complete", message := "Recommendations ready!"
          , progressPct := some 100, events := events.map serializeEvent } ]
    | .error exc =>
      started :: env.gatherProgressEvents ++ [analyzing] ++ ladder ++ [mkError exc]
  else
    [started, mkError attributeErrorMessage]

/-! ## Generic lemmas about the stable descending sort -/

/-- Inserting permutes to consing. -/
theorem insertByScoreDesc_perm (e : Event) (l : List Event) :
    List.Perm (insertByScoreDesc e l) (e :: l) := by
  induction l with
  | nil => simp [insertByScoreDesc]
  | cons x xs ih =>
    by_cases h : e.event_score < x.event_score
    · simp only [insertByScoreDesc, if_pos h]
      exact (ih.cons x).trans (List.Perm.swap e x xs)
    · simp [insertByScoreDesc, if_neg h]

/-- The sort is a permutation of its input. -/
theorem sortByScoreDesc_perm (l : List Event) :
    List.Perm (sortByScoreDesc l) l := by
  induction l with
  | nil => simp [sortByScoreDesc]
  | cons e rest ih =>
    exact (insertByScoreDesc_perm e (sortByScoreDesc rest)).trans (ih.cons e)

/-- Sorting preserves membership. -/
theorem mem_sortByScoreDesc {a : Event} {l : List Event} :
    a ∈ sortByScoreDesc l ↔ a ∈ l :=
  (sortByScoreDesc_perm l).mem_iff

/-- Sorting preserves length. -/
theorem length_sortByScoreDesc (l : List Event) :
    (sortByScoreDesc l).length = l.length :=
  (sortByScoreDesc_perm l).length_eq

/-- Inserting into a descending list keeps it descending. -/
theorem pairwise_insertByScoreDesc (e : Event) (l : List Event)
    (h : l.Pairwise (fun a b => b.event_score ≤ a.event_score)) :
    (insertByScoreDesc e l).Pairwise (fun a b => b.event_score ≤ a.event_score) := by
  induction l with
  | nil => simp [insertByScoreDesc]
  | cons x xs ih =>
    rw [List.pairwise_cons] at h
    obtain ⟨hx, hxs⟩ := h
    by_cases hc : e.event_score < x.event_score
    · simp only [insertByScoreDesc, if_pos hc]
      rw [List.pairwise_cons]
      refine ⟨fun b hb => ?_, ih hxs⟩
      rcases List.mem_cons.mp (((insertByScoreDesc_perm e xs).mem_iff).mp hb) with hb | hb
      · exact hb ▸ le_of_lt hc
      · exact hx b hb
    · simp only [insertByScoreDesc, if_neg hc]
      push_neg at hc
      rw [List.pairwise_cons]
      refine ⟨fun b hb => ?_, List.pairwise_cons.mpr ⟨hx, hxs⟩⟩
      rcases List.mem_cons.mp hb with hb | hb
      · exact hb ▸ hc
      · exact le_trans (hx b hb) hc

/-- The sorted list is descending in `event_score`. -/
theorem pairwise_sortByScoreDesc (l : List Event) :
    (sortByScoreDesc l).Pairwise (fun a b => b.event_score ≤ a.event_score) := by
  induction l with
  | nil => simp [sortByScoreDesc]
  | cons e rest ih => exact pairwise_insertByScoreDesc e _ ih

/-! ## Bounds of the rounding and scoring helpers -/

/-- Round-half-even stays within integer bounds of its argument. -/
theorem roundHalfEven_nonneg {x : ℚ} (hx : 0 ≤ x) : 0 ≤ roundHalfEven x := by
  have hf : (0 : ℤ) ≤ ⌊x⌋ := Int.floor_nonneg.mpr hx
  unfold roundHalfEven
  dsimp only
  split
  · exact hf
  · split
    · omega
    · split <;> omega

/-- Round-half-even does not exceed an integer upper bound. -/
theorem roundHalfEven_le {x : ℚ} {n : ℤ} (hx : x ≤ n) : roundHalfEven x ≤ n := by
  have hf : ⌊x⌋ ≤ n := by
    have h := Int.floor_le_floor hx
    simpa using h
  unfold roundHalfEven
  dsimp only
  split
  · exact hf
  · rename_i h1
    push_neg at h1
    have hfl : (⌊x⌋ : ℚ) + 1/2 ≤ x := by
      have := Int.floor_le x
      linarith
    have hlt : ⌊x⌋ < n := by
      by_contra hcon
      push_neg at hcon
      have hq : (n : ℚ) ≤ (⌊x⌋ : ℚ) := by exact_mod_cast hcon
      linarith
    split
    · omega
    · split <;> omega

/-- Python `round(x, 1)` maps [0, 10] into [0, 10]. -/
theorem pyRound1_mem_Icc {x : ℚ} (h0 : 0 ≤ x) (h10 : x ≤ 10) :
    0 ≤ pyRound1 x ∧ pyRound1 x ≤ 10 := by
  have hlo : 0 ≤ roundHalfEven (x * 10) := roundHalfEven_nonneg (by linarith)
  have hhi : roundHalfEven (x * 10) ≤ (100 : ℤ) := roundHalfEven_le (by push_cast; linarith)
  constructor
  · unfold pyRound1
    positivity
  · unfold pyRound1
    rw [div_le_iff₀ (by norm_num)]
    exact_mod_cast le_trans (by exact_mod_cast hhi) (by norm_num)

/-- The blended preference score is always clamped to [0, 10]. -/
theorem score_with_preferences_mem_Icc (baseline ratio : ℚ) :
    0 ≤ score_with_preferences baseline ratio ∧ score_with_preferences baseline ratio ≤ 10 := by
  unfold score_with_preferences
  dsimp only
  apply pyRound1_mem_Icc
  · rw [le_max_iff]
    left
    norm_num
  · rw [max_le_iff]
    exact ⟨by norm_num, le_trans (min_le_left _ _) (by norm_num)⟩

/-! ## Evaluation of the stream generator -/

/-- The attribute lookup fails: `ContextAggregator` defines no
`gather_context_streaming`. -/
theorem hasGatherContextStreaming_eq_false : hasGatherContextStreaming = false := by
  decide

/-- Every run of the stream generator emits exactly the `started`
progress event followed by the single `error` event produced by the
`except` block from the `AttributeError`. -/
theorem event_stream_generator_eq (req : RecommendationRequest) (env : StreamEnv) :
    event_stream_generator req env =
      [ { kind := "progress", status := "started", message := "Starting event search..."
        , progressPct := some 0 }
      , { kind := "error", status := "error"
        , message := "Error generating recommendations: " ++ attributeErrorMessage } ] := by
  unfold event_stream_generator
  rw [hasGatherContextStreaming_eq_false]
  simp

/-- C8: every execution of the streaming endpoint emits a non-empty
event sequence whose last element is a terminal (`complete` or `error`)
event, and that terminal event is the only terminal event emitted — so
nothing follows it and no path ends without one. -/
theorem C8_stream_always_ends_in_unique_terminal
    (req : RecommendationRequest) (env : StreamEnv) :
    ∃ e, (event_stream_generator req env).getLast? = some e ∧ e.isTerminal = true ∧
      (event_stream_generator req env).countP SSEEvent.isTerminal = 1 := by
  rw [event_stream_generator_eq]
  refine ⟨_, rfl, by decide, by decide⟩

/-- C10: the stream generator always terminates in an `error` event and
`complete` is unreachable: `gather_context_streaming` is not a method of
`ContextAggregator`, and even on the counterfactual branch the generation
step passes three positional arguments to the two-parameter
`generate_suggestions`; the raised exception is converted to the `error`
event before any `complete` can be emitted. -/
theorem C10_stream_error_complete_unreachable
    (req : RecommendationRequest) (env : StreamEnv) :
    hasGatherContextStreaming = false ∧
      streamGenerateSuggestionsArgCount = 3 ∧
      generateSuggestionsParamCount = 2 ∧
      (∃ e, (event_stream_generator req env).getLast? = some e ∧ e.kind = "error") ∧
      (∀ e ∈ event_stream_generator req env, e.kind ≠ "complete") := by
  refine ⟨by decide, rfl, rfl, ?_, ?_⟩
  · rw [event_stream_generator_eq]
    exact ⟨_, rfl, rfl⟩
  · rw [event_stream_generator_eq]
    intro e he
    rcases List.mem_cons.mp he with h | h
    · subst h; decide
    · rcases List.mem_cons.mp h with h | h
      · subst h; decide
      · simp at h

/-! ## Claims about `gather_context` -/

/-- C2: `gather_context` succeeds for every combination of provider
outcomes — provider-level failures (timeout, non-2xx, malformed payload)
never raise past the aggregator — and it raises exactly when the
mandatorily-required Eventbrite scraping dependency is unavailable, in
which case the configuration error is raised regardless of (hence before
consulting) any provider outcome. -/
theorem C2_aggregator_raises_only_for_missing_scraper
    (env : GatherEnv) (p : Option String) (d c : String) :
    (gather_context env p d c).isOk = env.eventbriteScraperAvailable ∧
      (∀ w f eb, gather_context ⟨false, w, f, eb⟩ p d c =
        .error "Eventbrite scraper is unavailable. Install and configure the scraper dependency.") := by
  constructor
  · cases hA : env.eventbriteScraperAvailable <;>
      simp [gather_context, hA, Except.isOk, Except.toBool]
  · intro w f eb
    simp [gather_context]

/-- C1 counterexample: run the aggregator with the festival provider as
the single failing provider.  The returned bundle keeps the default empty
festival payload, but no error field of the bundle records the failure:
both error fields the dict has (`weather_error`, `eventbrite_error`) are
`None`, and the dict has no festival error key at all — contradicting the
claim that the failing provider has a corresponding non-empty error field
in the bundle. -/
theorem C1_counterexample :
    ∃ b, gather_context
        { eventbriteScraperAvailable := true
        , weatherOutcome := .ok { fields :=
            { temperature := some 12, feels_like := some 11, humidity := some 80
            , wind_speed := some 5, percent_cloudiness := some 40
            , rain_mm_per_h := none, snow_mm_per_h := none }, date := "2025-08-01" }
        , festivalOutcome := .error "Failed to fetch festival events"
        , eventbriteOutcome := .ok [] }
        (some "music") "2025-08-01" "Edinburgh" = .ok b ∧
      b.festival_events = { date := "2025-08-01", events := [] } ∧
      b.weather_error = none ∧
      b.eventbrite_error = none ∧
      b.weather ≠ none ∧
      "festival_error" ∉ contextBundleFieldNames := by
  refine ⟨_, rfl, rfl, rfl, rfl, by decide, by decide⟩

/-- C1 amended: if the weather (resp. Eventbrite) provider is the single
failing provider, its bundle field is null/empty, its error field holds
the raised message, and the other providers' fields match the all-success
run; if the festival provider is the single failing provider, the
festival field stays the default empty payload but no error is recorded
anywhere — the bundle has no festival error field — while the other
providers' fields are unaffected. -/
theorem C1_amended_single_provider_failure
    (p : Option String) (d c : String)
    (w : WeatherPayloadWithDate) (f : FestivalEventsPayload) (eb : List EventbriteItem)
    (m : String) (hm : m ≠ "") :
    (∀ b, gather_context ⟨true, .error m, .ok f, .ok eb⟩ p d c = .ok b →
      b.weather = none ∧ b.weather_error = some m ∧ m ≠ "" ∧
        (∀ b2, gather_context ⟨true, .ok w, .ok f, .ok eb⟩ p d c = .ok b2 →
          b.festival_events = b2.festival_events ∧
          b.eventbrite_events = b2.eventbrite_events ∧
          b.eventbrite_error = b2.eventbrite_error)) ∧
    (∀ b, gather_context ⟨true, .ok w, .ok f, .error m⟩ p d c = .ok b →
      b.eventbrite_events = [] ∧ b.eventbrite_error = some m ∧ m ≠ "" ∧
        (∀ b2, gather_context ⟨true, .ok w, .ok f, .ok eb⟩ p d c = .ok b2 →
          b.weather = b2.weather ∧
          b.weather_error = b2.weather_error ∧
          b.festival_events = b2.festival_events)) ∧
    (∀ b, gather_context ⟨true, .ok w, .error m, .ok eb⟩ p d c = .ok b →
      b.festival_events = { date := d, events := [] } ∧
      b.weather_error = none ∧ b.eventbrite_error = none ∧
        (∀ b2, gather_context ⟨true, .ok w, .ok f, .ok eb⟩ p d c = .ok b2 →
          b.weather = b2.weather ∧
          b.eventbrite_events = b2.eventbrite_events)) ∧
    "festival_error" ∉ contextBundleFieldNames := by
  refine ⟨?_, ?_, ?_, by decide⟩
  · intro b hb
    unfold gather_context at hb
    simp only [Bool.not_true, Bool.false_eq_true, if_false, Except.ok.injEq] at hb
    subst hb
    refine ⟨rfl, rfl, hm, ?_⟩
    intro b2 hb2
    unfold gather_context at hb2
    simp only [Bool.not_true, Bool.false_eq_true, if_false, Except.ok.injEq] at hb2
    subst hb2
    exact ⟨rfl, rfl, rfl⟩
  · intro b hb
    unfold gather_context at hb
    simp only [Bool.not_true, Bool.false_eq_true, if_false, Except.ok.injEq] at hb
    subst hb
    refine ⟨rfl, rfl, hm, ?_⟩
    intro b2 hb2
    unfold gather_context at hb2
    simp only [Bool.not_true, Bool.false_eq_true, if_false, Except.ok.injEq] at hb2
    subst hb2
    exact ⟨rfl, rfl, rfl⟩
  · intro b hb
    unfold gather_context at hb
    simp only [Bool.not_true, Bool.false_eq_true, if_false, Except.ok.injEq] at hb
    subst hb
    refine ⟨rfl, rfl, rfl, ?_⟩
    intro b2 hb2
    unfold gather_context at hb2
    simp only [Bool.not_true, Bool.false_eq_true, if_false, Except.ok.injEq] at hb2
    subst hb2
    exact ⟨rfl, rfl⟩

/-- Witness for the amended C1 at a concrete input: a weather timeout
with both other providers succeeding yields a bundle with a null weather
field and the stored error message. -/
theorem C1_amended_single_provider_failure_witness :
    ∃ b, gather_context
        ⟨true, .error "timeout", .ok { date := "2025-08-01", events := [] }, .ok []⟩
        (some "music") "2025-08-01" "Edinburgh" = .ok b ∧
      b.weather = none ∧ b.weather_error = some "timeout" := by
  have h := C1_amended_single_provider_failure (some "music") "2025-08-01" "Edinburgh"
    { fields := { temperature := none, feels_like := none, humidity := none
                , wind_speed := none, percent_cloudiness := none
                , rain_mm_per_h := none, snow_mm_per_h := none }, date := "2025-08-01" }
    { date := "2025-08-01", events := [] } [] "timeout" (by decide)
  obtain ⟨h1, _, _, _⟩ := h
  refine ⟨_, rfl, ?_, ?_⟩
  · exact (h1 _ rfl).1
  · exact (h1 _ rfl).2.1

/-! ## Claim about the cache layer -/

/-- C3: for both caches (weather keyed by city+country+date with a
10-minute TTL, festivals keyed by date+festival-id+limit with a
30-minute TTL): a lookup within the TTL window returns the stored
payload unchanged with zero fetch invocations and leaves the cache
untouched, for every possible fetch outcome; a lookup after expiry
invokes the fetch exactly once and overwrites the entry with
`(now, result)`, which the updated cache then yields for that key. -/
theorem C3_cache_ttl_semantics :
    WEATHER_CACHE_TTL_SECONDS = 600 ∧ FESTIVAL_CACHE_TTL_SECONDS = 1800 ∧
    (∀ (cache : WeatherCache) (city country d : String) (now t : ℕ)
        (payload : WeatherPayloadWithDate) (fetch : Except String WeatherFields),
      cache.lookup (city, country, d) = some (t, payload) →
      now - t < WEATHER_CACHE_TTL_SECONDS →
      get_todays_weather_forecast cache city country d now fetch = .ok (payload, cache, 0)) ∧
    (∀ (cache : WeatherCache) (city country d : String) (now t : ℕ)
        (payload : WeatherPayloadWithDate) (w : WeatherFields),
      cache.lookup (city, country, d) = some (t, payload) →
      ¬ now - t < WEATHER_CACHE_TTL_SECONDS →
      get_todays_weather_forecast cache city country d now (.ok w) =
        .ok ({ fields := w, date := d },
             storeEntry cache (city, country, d) (now, { fields := w, date := d }), 1) ∧
      (storeEntry cache (city, country, d)
          (now, ({ fields := w, date := d } : WeatherPayloadWithDate))).lookup
          (city, country, d) = some (now, { fields := w, date := d })) ∧
    (∀ (cache : FestivalCache) (d : String) (fid : Option String) (lim : Option ℤ)
        (now t : ℕ) (payload : FestivalEventsPayload)
        (fetch : Except String FestivalEventsPayload),
      cache.lookup (d, fid, lim) = some (t, payload) →
      now - t < FESTIVAL_CACHE_TTL_SECONDS →
      get_festival_events_cached cache d fid lim now fetch = .ok (payload, cache, 0)) ∧
    (∀ (cache : FestivalCache) (d : String) (fid : Option String) (lim : Option ℤ)
        (now t : ℕ) (payload events : FestivalEventsPayload),
      cache.lookup (d, fid, lim) = some (t, payload) →
      ¬ now - t < FESTIVAL_CACHE_TTL_SECONDS →
      get_festival_events_cached cache d fid lim now (.ok events) =
        .ok (events, storeEntry cache (d, fid, lim) (now, events), 1) ∧
      (storeEntry cache (d, fid, lim) (now, events)).lookup (d, fid, lim) =
        some (now, events)) := by
  refine ⟨rfl, rfl, ?_, ?_, ?_, ?_⟩
  · intro cache city country d now t payload fetch hlk httl
    unfold get_todays_weather_forecast
    dsimp only
    rw [hlk]
    simp [httl]
  · intro cache city country d now t payload w hlk httl
    constructor
    · unfold get_todays_weather_forecast
      dsimp only
      rw [hlk]
      simp [httl]
    · simp [storeEntry, List.lookup]
  · intro cache d fid lim now t payload fetch hlk httl
    unfold get_festival_events_cached
    dsimp only
    rw [hlk]
    simp [httl]
  · intro cache d fid lim now t payload events hlk httl
    constructor
    · unfold get_festival_events_cached
      dsimp only
      rw [hlk]
      simp [httl]
    · simp [storeEntry, List.lookup]

/-- Witness for C3 at concrete inputs: an entry stored at `t = 100` is
served from the cache at `now = 400` (300 s old, within both TTLs) with
no fetch, and at `now = 800` the weather entry (700 s old, past the
10-minute TTL) is refreshed by exactly one fetch and overwritten with
`(800, result)`. -/
theorem C3_cache_ttl_semantics_witness :
    get_todays_weather_forecast
        [(("Edinburgh", "GB", "2025-08-01"),
          (100, { fields := { temperature := some 12, feels_like := none, humidity := none
                            , wind_speed := none, percent_cloudiness := none
                            , rain_mm_per_h := none, snow_mm_per_h := none }
                , date := "2025-08-01" }))]
        "Edinburgh" "GB" "2025-08-01" 400 (.error "fetch should not run") =
      .ok ({ fields := { temperature := some 12, feels_like := none, humidity := none
                       , wind_speed := none, percent_cloudiness := none
                       , rain_mm_per_h := none, snow_mm_per_h := none }
           , date := "2025-08-01" },
           [(("Edinburgh", "GB", "2025-08-01"),
             (100, { fields := { temperature := some 12, feels_like := none, humidity := none
                               , wind_speed := none, percent_cloudiness := none
                               , rain_mm_per_h := none, snow_mm_per_h := none }
                   , date := "2025-08-01" }))], 0) ∧
    get_todays_weather_forecast
        [(("Edinburgh", "GB", "2025-08-01"),
          (100, { fields := { temperature := some 12, feels_like := none, humidity := none
                            , wind_speed := none, percent_cloudiness := none
                            , rain_mm_per_h := none, snow_mm_per_h := none }
                , date := "2025-08-01" }))]
        "Edinburgh" "GB" "2025-08-01" 800
        (.ok { temperature := some 15, feels_like := none, humidity := none
             , wind_speed := none, percent_cloudiness := none
             , rain_mm_per_h := none, snow_mm_per_h := none }) =
      .ok ({ fields := { temperature := some 15, feels_like := none, humidity := none
                       , wind_speed := none, percent_cloudiness := none
                       , rain_mm_per_h := none, snow_mm_per_h := none }
           , date := "2025-08-01" },
           storeEntry
             [(("Edinburgh", "GB", "2025-08-01"),
               (100, { fields := { temperature := some 12, feels_like := none, humidity := none
                                 , wind_speed := none, percent_cloudiness := none
                                 , rain_mm_per_h := none, snow_mm_per_h := none }
                     , date := "2025-08-01" }))]
             ("Edinburgh", "GB", "2025-08-01")
             (800, { fields := { temperature := some 15, feels_like := none, humidity := none
                               , wind_speed := none, percent_cloudiness := none
                               , rain_mm_per_h := none, snow_mm_per_h := none }
                   , date := "2025-08-01" }), 1) ∧
    get_festival_events_cached
        [(("2025-08-01", some "fringe", some 25), (100, { date := "2025-08-01", events := [] }))]
        "2025-08-01" (some "fringe") (some 25) 400 (.error "fetch should not run") =
      .ok ({ date := "2025-08-01", events := [] },
           [(("2025-08-01", some "fringe", some 25),
             (100, { date := "2025-08-01", events := [] }))], 0) := by
  obtain ⟨-, -, hWhit, hWexp, hFhit, -⟩ := C3_cache_ttl_semantics
  refine ⟨?_, ?_, ?_⟩
  · exact hWhit _ "Edinburgh" "GB" "2025-08-01" 400 100
      ⟨⟨some 12, none, none, none, none, none, none⟩, "2025-08-01"⟩
      (.error "fetch should not run") (by decide) (by decide)
  · exact (hWexp _ "Edinburgh" "GB" "2025-08-01" 800 100
      ⟨⟨some 12, none, none, none, none, none, none⟩, "2025-08-01"⟩
      ⟨some 15, none, none, none, none, none, none⟩ (by decide) (by decide)).1
  · exact hFhit _ "2025-08-01" (some "fringe") (some 25) 400 100
      ⟨"2025-08-01", []⟩ (.error "fetch should not run") (by decide) (by decide)

/-! ## Claim about the Recommendation Event invariants -/

/-- C7: every Recommendation Event produced by the system respects the
invariants: the deterministic rescoring formula and the festival-API
scoring both clamp `event_score` into [0,10] for every possible input;
the pydantic schema admits an event only when its score is within
[0,10], and every admitted event carries the mandatory 2D location it
was constructed with; and every member of the fixed mock pool satisfies
the bounds. -/
theorem C7_events_always_clamped_with_location :
    (∀ baseline ratio : ℚ,
      0 ≤ score_with_preferences baseline ratio ∧ score_with_preferences baseline ratio ≤ 10) ∧
    (∀ item : FestivalItem, 0 ≤ score_event item ∧ score_event item ≤ 10) ∧
    (∀ (loc : Location) (nm em : String) (sc : ℚ) (ds : String) (lk : Option String)
        (e : Event), validateEvent loc nm em sc ds lk = some e →
      (0 ≤ e.event_score ∧ e.event_score ≤ 10) ∧ e.location = loc) ∧
    (∀ e ∈ MOCK_EVENTS, 0 ≤ e.event_score ∧ e.event_score ≤ 10) := by
  refine ⟨score_with_preferences_mem_Icc, ?_, ?_, ?_⟩
  · intro item
    unfold score_event
    dsimp only
    constructor
    · rw [le_max_iff]
      left
      norm_num
    · rw [max_le_iff]
      exact ⟨by norm_num, le_trans (min_le_left _ _) (by norm_num)⟩
  · intro loc nm em sc ds lk e he
    unfold validateEvent at he
    split at he
    · rename_i hsc
      rw [Option.some.injEq] at he
      subst he
      exact ⟨hsc, rfl⟩
    · exact absurd he (by simp)
  · intro e he
    fin_cases he <;> constructor <;> norm_num [MOCK_EVENTS]

/-- Witness for C7 at concrete inputs: the blend of a baseline 9.2 with a
half match stays in bounds; a fully-specified festival item scores in
bounds; a concrete payload with score 5 passes schema validation keeping
its location; and the first mock event is in bounds. -/
theorem C7_events_always_clamped_with_location_witness :
    (0 ≤ score_with_preferences 9.2 (1/2) ∧ score_with_preferences 9.2 (1/2) ≤ 10) ∧
    (0 ≤ score_event ⟨some "active", true, some [true]⟩ ∧
      score_event ⟨some "active", true, some [true]⟩ ≤ 10) ∧
    ((0 ≤ (5 : ℚ) ∧ (5 : ℚ) ≤ 10) ∧
      ({ location := ⟨1, 2⟩, name := "Sample", emoji := "🎉", event_score := 5
       , description := "d", link := none } : Event).location = ⟨1, 2⟩) ∧
    (0 ≤ (9.2 : ℚ) ∧ (9.2 : ℚ) ≤ 10) := by
  obtain ⟨ha, hb, hc, hd⟩ := C7_events_always_clamped_with_location
  have hval : validateEvent ⟨1, 2⟩ "Sample" "🎉" 5 "d" none =
      some { location := ⟨1, 2⟩, name := "Sample", emoji := "🎉", event_score := 5
           , description := "d", link := none } := by
    unfold validateEvent
    rw [if_pos (by norm_num)]
  refine ⟨ha 9.2 (1/2), hb ⟨some "active", true, some [true]⟩, ?_, ?_⟩
  · exact hc ⟨1, 2⟩ "Sample" "🎉" 5 "d" none _ hval
  · exact hd _ (List.mem_cons_self _ _)

/-! ## Claims about the generative backend and the streaming error path -/

/-- With every candidate model failing, the fallback loop raises the
terminal error. -/
theorem generate_event_suggestions_go_all_fail (attempt : ModelAttempt) (maxE : ℕ)
    (candidates : List String) :
    ∀ last : Option String,
      (∀ m ∈ candidates, ∃ exc, attempt m maxE = .error exc) →
      ∃ msg, generate_event_suggestions_go attempt maxE candidates last = .error msg := by
  induction candidates with
  | nil =>
    intro last _
    exact ⟨_, rfl⟩
  | cons m rest ih =>
    intro last h
    obtain ⟨exc, hexc⟩ := h m (List.mem_cons_self _ _)
    have hrest := fun x hx => h x (List.mem_cons_of_mem _ hx)
    simp only [generate_event_suggestions_go]
    rw [hexc]
    exact ih (some exc) hrest

/-- With every candidate model failing, each model is attempted exactly
once, in order. -/
theorem attemptedModels_all_fail (attempt : ModelAttempt) (maxE : ℕ)
    (candidates : List String) :
    (∀ m ∈ candidates, ∃ exc, attempt m maxE = .error exc) →
    attemptedModels attempt maxE candidates = candidates := by
  induction candidates with
  | nil =>
    intro _
    rfl
  | cons m rest ih =>
    intro h
    obtain ⟨exc, hexc⟩ := h m (List.mem_cons_self _ _)
    simp only [attemptedModels]
    rw [hexc]
    rw [ih (fun x hx => h x (List.mem_cons_of_mem _ hx))]

/-- C9 counterexample: with the default model list and every model
failing, `generate_event_suggestions` does raise the terminal error, but
on the streaming path this failure does not surface: the emitted stream
is identical to the one emitted when generation succeeds — a single
`error` event whose message reports the aggregation-step
`AttributeError`, not the generation failure. -/
theorem C9_counterexample :
    generate_event_suggestions ["gpt-4.1-mini", "gpt-4.1", "gpt-4o-mini", "gpt-4o"]
        (fun m _ => .error ("model " ++ m ++ " unavailable")) 3 =
      .error "All configured OpenAI models failed. Last error: model gpt-4o unavailable" ∧
    event_stream_generator ⟨3, some "music"⟩
        ⟨[], .error "All configured OpenAI models failed. Last error: model gpt-4o unavailable"⟩ =
      event_stream_generator ⟨3, some "music"⟩ ⟨[], .ok []⟩ ∧
    event_stream_generator ⟨3, some "music"⟩
        ⟨[], .error "All configured OpenAI models failed. Last error: model gpt-4o unavailable"⟩ =
      [ { kind := "progress", status := "started", message := "Starting event search..."
        , progressPct := some 0 }
      , { kind := "error", status := "error"
        , message := "Error generating recommendations: " ++ attributeErrorMessage } ] ∧
    "Error generating recommendations: " ++ attributeErrorMessage ≠
      "Error generating recommendations: All configured OpenAI models failed. Last error: model gpt-4o unavailable" := by
  refine ⟨by rfl, ?_, event_stream_generator_eq _ _, by decide⟩
  rw [event_stream_generator_eq, event_stream_generator_eq]

/-- C9 amended: when every configured generation model fails,
`LLM.generate_event_suggestions` raises a terminal error after
attempting each model in its ordered candidate list exactly once; the
streaming path, however, never reaches generation — it fails earlier at
the missing `gather_context_streaming` method — so what it emits is a
single `error` SSE event (with the descriptive aggregation-failure
message) and no `complete` event. -/
theorem C9_amended_all_models_fail_terminal_error
    (candidates : List String) (attempt : ModelAttempt) (maxE : ℕ)
    (hfail : ∀ m ∈ candidates, ∃ exc, attempt m maxE = .error exc) :
    ((∃ msg, generate_event_suggestions candidates attempt maxE = .error msg) ∧
      attemptedModels attempt maxE candidates = candidates) ∧
    (∀ (req : RecommendationRequest) (env : StreamEnv),
      (event_stream_generator req env).countP (fun e => e.kind == "error") = 1 ∧
      (event_stream_generator req env).countP (fun e => e.kind == "complete") = 0 ∧
      (event_stream_generator req env).getLast? = some
        { kind := "error", status := "error"
        , message := "Error generating recommendations: " ++ attributeErrorMessage }) := by
  constructor
  · exact ⟨generate_event_suggestions_go_all_fail attempt maxE candidates none hfail,
      attemptedModels_all_fail attempt maxE candidates hfail⟩
  · intro req env
    rw [event_stream_generator_eq]
    refine ⟨?_, ?_, rfl⟩ <;> decide

/-- Witness for the amended C9: a single always-failing model is
attempted once and the loop raises the terminal error. -/
theorem C9_amended_all_models_fail_terminal_error_witness :
    ((∃ msg, generate_event_suggestions ["gpt-4.1-mini"]
        (fun _ _ => .error "boom") 1 = .error msg) ∧
      attemptedModels (fun _ _ => .error "boom") 1 ["gpt-4.1-mini"] = ["gpt-4.1-mini"]) ∧
    (∀ (req : RecommendationRequest) (env : StreamEnv),
      (event_stream_generator req env).countP (fun e => e.kind == "error") = 1 ∧
      (event_stream_generator req env).countP (fun e => e.kind == "complete") = 0 ∧
      (event_stream_generator req env).getLast? = some
        { kind := "error", status := "error"
        , message := "Error generating recommendations: " ++ attributeErrorMessage }) :=
  C9_amended_all_models_fail_terminal_error ["gpt-4.1-mini"] (fun _ _ => .error "boom") 1
    (fun _ _ => ⟨"boom", rfl⟩)

/-! ## Claims about result counts -/

/-- C5 counterexample: the generative backend does not truncate or cap
its result at `max_events`: a model success carrying three events with
`max_events = 2` is returned whole — `max_events` is only interpolated
into the prompt. -/
theorem C5_counterexample :
    generate_event_suggestions ["gpt-4.1-mini"]
        (fun _ _ => .ok
          [ { location := ⟨0, 0⟩, name := "A", emoji := "🎉", event_score := 5, description := "a" }
          , { location := ⟨1, 1⟩, name := "B", emoji := "🎉", event_score := 6, description := "b" }
          , { location := ⟨2, 2⟩, name := "C", emoji := "🎉", event_score := 7, description := "c" } ]) 2 =
      .ok
        [ { location := ⟨0, 0⟩, name := "A", emoji := "🎉", event_score := 5, description := "a" }
        , { location := ⟨1, 1⟩, name := "B", emoji := "🎉", event_score := 6, description := "b" }
        , { location := ⟨2, 2⟩, name := "C", emoji := "🎉", event_score := 7, description := "c" } ] ∧
    ¬ ([ ({ location := ⟨0, 0⟩, name := "A", emoji := "🎉", event_score := 5, description := "a" } : Event)
       , { location := ⟨1, 1⟩, name := "B", emoji := "🎉", event_score := 6, description := "b" }
       , { location := ⟨2, 2⟩, name := "C", emoji := "🎉", event_score := 7, description := "c" } ].length ≤ 2) := by
  exact ⟨rfl, by decide⟩

/-- The fallback loop skips any prefix of failing models and returns the
first success unchanged. -/
theorem generate_event_suggestions_go_first_success (attempt : ModelAttempt) (maxE : ℕ)
    (m : String) (rest : List String) (evs : List Event)
    (hm : attempt m maxE = .ok evs) (failing : List String) :
    ∀ last : Option String,
      (∀ f ∈ failing, ∃ exc, attempt f maxE = .error exc) →
      generate_event_suggestions_go attempt maxE (failing ++ m :: rest) last = .ok evs := by
  induction failing with
  | nil =>
    intro last _
    simp only [List.nil_append, generate_event_suggestions_go]
    rw [hm]
  | cons f fs ih =>
    intro last h
    obtain ⟨exc, hexc⟩ := h f (List.mem_cons_self _ _)
    simp only [List.cons_append, generate_event_suggestions_go]
    rw [hexc]
    exact ih (some exc) (fun x hx => h x (List.mem_cons_of_mem _ hx))

/-- C5 amended: the deterministic (mock) backend returns exactly
`min(count, |pool|)` events — never padding — while the generative
backend returns the first successful structured result unchanged (after
any prefix of failing models in the ordered candidate list), with no
truncation at `count` (the cap exists only in the prompt text). -/
theorem C5_amended_result_counts (genv : GeneratorEnv)
    (hmock : genv.mock_mode_enabled = true)
    (number_events : ℕ) (p : Option String) :
    (∃ evs, generate_suggestions genv number_events p = .ok evs ∧
      evs.length = min number_events MOCK_EVENTS.length) ∧
    (∀ (failing : List String) (m : String) (rest : List String) (attempt : ModelAttempt)
        (maxE : ℕ) (evs : List Event),
      (∀ f ∈ failing, ∃ exc, attempt f maxE = .error exc) →
      attempt m maxE = .ok evs →
      generate_event_suggestions (failing ++ m :: rest) attempt maxE = .ok evs) := by
  constructor
  · have hlen : (get_mock_events (number_events : ℤ)).length =
        min number_events MOCK_EVENTS.length := by
      unfold get_mock_events
      rw [List.length_take]
      omega
    unfold generate_suggestions
    rw [hmock]
    dsimp only
    rw [if_pos rfl]
    by_cases ht : (tokenize_preferences p).isEmpty = true
    · rw [if_pos ht]
      exact ⟨_, rfl, hlen⟩
    · rw [if_neg ht]
      refine ⟨_, rfl, ?_⟩
      rw [length_sortByScoreDesc, List.length_map]
      exact hlen
  · intro failing m rest attempt maxE evs hfail hm
    exact generate_event_suggestions_go_first_success attempt maxE m rest evs hm failing none hfail

/-- Witness for the amended C5: in mock mode a request for 3 events
returns exactly 3 = min(3, 8), and after a failing first model the
second model's success — carrying more events than `max_events` — is
returned unchanged. -/
theorem C5_amended_result_counts_witness :
    (∃ evs, generate_suggestions
        ⟨true, false, ⟨false, .error "w", .error "f", .error "e"⟩, "2025-08-01", [],
          fun _ _ => .error "unused"⟩ 3 none = .ok evs ∧
      evs.length = min 3 MOCK_EVENTS.length) ∧
    generate_event_suggestions ["bad-model", "gpt-4.1-mini"]
        (fun name _ => if name == "bad-model" then .error "boom"
          else .ok
            [ { location := ⟨0, 0⟩, name := "A", emoji := "🎉", event_score := 5, description := "a" }
            , { location := ⟨1, 1⟩, name := "B", emoji := "🎉", event_score := 6, description := "b" } ]) 1 =
      .ok
        [ { location := ⟨0, 0⟩, name := "A", emoji := "🎉", event_score := 5, description := "a" }
        , { location := ⟨1, 1⟩, name := "B", emoji := "🎉", event_score := 6, description := "b" } ] := by
  have h := C5_amended_result_counts
    ⟨true, false, ⟨false, .error "w", .error "f", .error "e"⟩, "2025-08-01", [],
      fun _ _ => .error "unused"⟩ rfl 3 none
  refine ⟨h.1, ?_⟩
  exact h.2 ["bad-model"] "gpt-4.1-mini" [] _ 1 _
    (fun f hf => ⟨"boom", by
      have hfeq : f = "bad-model" := by simpa using hf
      subst hfeq
      rfl⟩) rfl

/-! ## Claims about the deterministic (mock) backend -/

/-- For a natural `limit`, `get_mock_events` is plain truncation. -/
theorem get_mock_events_natCast (c : ℕ) :
    get_mock_events (c : ℤ) = MOCK_EVENTS.take c := by
  unfold get_mock_events
  have hmax : ((max 0 (c : ℤ)).toNat) = c := by omega
  rw [hmax]

/-- Tokens contained in no part of the text give a zero match ratio. -/
theorem match_strength_eq_zero (text : String) (tokens : List String)
    (h : ∀ t ∈ tokens, strContains text t = false) :
    match_strength text tokens = 0 := by
  unfold match_strength
  split
  · rfl
  · have hcount : tokens.countP (fun t => strContains text t) = 0 := by
      rw [List.countP_eq_zero]
      intro t ht
      simp [h t ht]
    rw [hcount]
    simp

/-- Rescoring changes only the score, never the matched text. -/
theorem eventMatchText_rescoreEvent (tokens : List String) (e : Event) :
    eventMatchText (rescoreEvent tokens e) = eventMatchText e := rfl

/-- The mock branch of `generate_suggestions` with non-empty preference
tokens: truncate the pool to `number_events` first, then rescore and
sort just the truncated slice. -/
theorem generate_suggestions_mock_eq (genv : GeneratorEnv)
    (hmock : genv.mock_mode_enabled = true) (c : ℕ) (p : Option String)
    (htok : tokenize_preferences p ≠ []) :
    generate_suggestions genv c p =
      .ok (sortByScoreDesc ((MOCK_EVENTS.take c).map (rescoreEvent (tokenize_preferences p)))) := by
  have hfalse : (tokenize_preferences p).isEmpty = false := by
    cases h : tokenize_preferences p
    · exact absurd h htok
    · rfl
  unfold generate_suggestions
  rw [hmock]
  dsimp only
  rw [if_pos rfl, get_mock_events_natCast, hfalse]
  simp

/-- C4 counterexample: with preferences "storytelling" and count 3, the
pool has a matching candidate (Grassmarket Storytelling Night, in
position 8), yet the returned list consists of three non-matching
candidates and excludes the matching one — because the pool is truncated
to `count` before any scoring happens, the matching candidate is not
ranked above the non-matching ones in the returned list. -/
theorem C4_counterexample :
    ∃ evs, generate_suggestions
        ⟨true, false, ⟨false, .error "w", .error "f", .error "e"⟩, "2025-08-01", [],
          fun _ _ => .error "unused"⟩ 3 (some "storytelling") = .ok evs ∧
      (∃ e ∈ MOCK_EVENTS, strContains (eventMatchText e) "storytelling" = true) ∧
      (∀ e ∈ evs, strContains (eventMatchText e) "storytelling" = false) ∧
      evs.length = 3 := by
  have heq := generate_suggestions_mock_eq
    ⟨true, false, ⟨false, .error "w", .error "f", .error "e"⟩, "2025-08-01", [],
      fun _ _ => .error "unused"⟩ rfl 3 (some "storytelling") (by decide)
  refine ⟨_, heq, ?_, ?_, ?_⟩
  · exact ⟨MOCK_EVENTS.get ⟨7, by decide⟩, List.get_mem MOCK_EVENTS 7 (by decide), by decide⟩
  · intro e he
    rw [mem_sortByScoreDesc] at he
    obtain ⟨x, hx, rfl⟩ := List.mem_map.mp he
    rw [eventMatchText_rescoreEvent]
    have hall : ∀ x ∈ MOCK_EVENTS.take 3, strContains (eventMatchText x) "storytelling" = false := by
      decide
    exact hall x hx
  · rw [length_sortByScoreDesc, List.length_map]
    decide

/-- C4 amended: for every count in [1,25] and preferences with at least
one token, the deterministic backend truncates the fixed pool to `count`
first and only then rescores (70/30 blend via
`score_with_preferences`) and sorts that slice descending — so the
returned list is a descending-by-score arrangement of the first `count`
pool candidates, of length `min(count, |pool|)`; a preference-matching
candidate beyond position `count` in the pool is never returned. -/
theorem C4_amended_truncate_before_scoring (genv : GeneratorEnv)
    (hmock : genv.mock_mode_enabled = true) (c : ℕ) (p : Option String)
    (htok : tokenize_preferences p ≠ []) :
    ∃ evs, generate_suggestions genv c p = .ok evs ∧
      (∀ e ∈ evs, ∃ e0 ∈ MOCK_EVENTS.take c,
        e = rescoreEvent (tokenize_preferences p) e0) ∧
      evs.Pairwise (fun a b => b.event_score ≤ a.event_score) ∧
      evs.length = min c MOCK_EVENTS.length := by
  refine ⟨_, generate_suggestions_mock_eq genv hmock c p htok, ?_, ?_, ?_⟩
  · intro e he
    rw [mem_sortByScoreDesc] at he
    obtain ⟨x, hx, rfl⟩ := List.mem_map.mp he
    exact ⟨x, hx, rfl⟩
  · exact pairwise_sortByScoreDesc _
  · rw [length_sortByScoreDesc, List.length_map, List.length_take]

/-- Witness for the amended C4: count 3 with preferences "storytelling"
returns 3 = min(3, 8) rescored candidates from the first 3 pool slots. -/
theorem C4_amended_truncate_before_scoring_witness :
    ∃ evs, generate_suggestions
        ⟨true, false, ⟨false, .error "w", .error "f", .error "e"⟩, "2025-08-01", [],
          fun _ _ => .error "unused"⟩ 3 (some "storytelling") = .ok evs ∧
      (∀ e ∈ evs, ∃ e0 ∈ MOCK_EVENTS.take 3,
        e = rescoreEvent (tokenize_preferences (some "storytelling")) e0) ∧
      evs.length = min 3 MOCK_EVENTS.length := by
  obtain ⟨evs, h1, h2, -, h4⟩ := C4_amended_truncate_before_scoring
    ⟨true, false, ⟨false, .error "w", .error "f", .error "e"⟩, "2025-08-01", [],
      fun _ _ => .error "unused"⟩ rfl 3 (some "storytelling") (by decide)
  exact ⟨evs, h1, h2, h4⟩

/-- Concrete evaluation: rescoring the whole pool with a zero match
ratio and sorting stably yields exactly the baseline-descending order of
the mock candidates. -/
theorem sortByScoreDesc_no_match_names :
    (sortByScoreDesc (MOCK_EVENTS.map (fun e =>
        { e with event_score := score_with_preferences e.event_score 0 }))).map Event.name =
      [ "Sunrise Arthurs Seat Hike", "Portobello Beach Cleanup", "Leith Street Food Market"
      , "Grassmarket Storytelling Night", "Stockbridge Farmers Market", "Meadows Community Yoga"
      , "Calton Hill Sketch Walk", "Water of Leith Cycle" ] := by
  have h92 : score_with_preferences 9.2 0 = 4.8 := by
    norm_num [score_with_preferences, pyRound1, roundHalfEven]
  have h87 : score_with_preferences 8.7 0 = 4.6 := by
    norm_num [score_with_preferences, pyRound1, roundHalfEven]
  have h81 : score_with_preferences 8.1 0 = 4.4 := by
    norm_num [score_with_preferences, pyRound1, roundHalfEven]
  have h89 : score_with_preferences 8.9 0 = 4.7 := by
    norm_num [score_with_preferences, pyRound1, roundHalfEven]
  have h84 : score_with_preferences 8.4 0 = 4.5 := by
    norm_num [score_with_preferences, pyRound1, roundHalfEven]
  have h78 : score_with_preferences 7.8 0 = 4.3 := by
    norm_num [score_with_preferences, pyRound1, roundHalfEven]
  have h80 : score_with_preferences 8.0 0 = 4.4 := by
    norm_num [score_with_preferences, pyRound1, roundHalfEven]
  have h86 : score_with_preferences 8.6 0 = 4.6 := by
    norm_num [score_with_preferences, pyRound1, roundHalfEven]
  simp only [MOCK_EVENTS, List.map_cons, List.map_nil]
  rw [h92, h87, h81, h89, h84, h78, h80, h86]
  norm_num [sortByScoreDesc, insertByScoreDesc]

/-- C6 counterexample: preferences "zzzz" (one token, matching no
candidate) with count 1 return a single event — not the full
(8-element) candidate pool the claim promises for every count. -/
theorem C6_counterexample :
    ∃ evs, generate_suggestions
        ⟨true, false, ⟨false, .error "w", .error "f", .error "e"⟩, "2025-08-01", [],
          fun _ _ => .error "unused"⟩ 1 (some "zzzz") = .ok evs ∧
      tokenize_preferences (some "zzzz") ≠ [] ∧
      (∀ t ∈ tokenize_preferences (some "zzzz"),
        ∀ e ∈ MOCK_EVENTS, strContains (eventMatchText e) t = false) ∧
      evs.length = 1 ∧
      MOCK_EVENTS.length = 8 := by
  refine ⟨_, generate_suggestions_mock_eq
      ⟨true, false, ⟨false, .error "w", .error "f", .error "e"⟩, "2025-08-01", [],
        fun _ _ => .error "unused"⟩ rfl 1 (some "zzzz") (by decide),
    by decide, by decide, ?_, by decide⟩
  rw [length_sortByScoreDesc, List.length_map]
  decide

/-- C6 amended: when the preference tokens (at least one) match no
candidate, the deterministic backend returns the first
`min(count, |pool|)` candidates — never an empty list for count ≥ 1, but
also not the full pool when count is smaller — each rescored by the
fixed no-match formula (monotone in the baseline), and for count ≥ pool
size the result is the full pool in baseline-descending order. -/
theorem C6_amended_no_match_returns_truncated_baseline_pool
    (genv : GeneratorEnv) (hmock : genv.mock_mode_enabled = true)
    (c : ℕ) (hc : 1 ≤ c) (p : Option String)
    (htok : tokenize_preferences p ≠ [])
    (hnomatch : ∀ t ∈ tokenize_preferences p,
      ∀ e ∈ MOCK_EVENTS, strContains (eventMatchText e) t = false) :
    ∃ evs, generate_suggestions genv c p = .ok evs ∧
      evs ≠ [] ∧
      evs.length = min c MOCK_EVENTS.length ∧
      (∀ e ∈ evs, ∃ e0 ∈ MOCK_EVENTS.take c,
        e = { e0 with event_score := score_with_preferences e0.event_score 0 }) ∧
      (MOCK_EVENTS.length ≤ c → evs.map Event.name =
        [ "Sunrise Arthurs Seat Hike", "Portobello Beach Cleanup", "Leith Street Food Market"
        , "Grassmarket Storytelling Night", "Stockbridge Farmers Market", "Meadows Community Yoga"
        , "Calton Hill Sketch Walk", "Water of Leith Cycle" ]) := by
  have hmapeq : ∀ n : ℕ, (MOCK_EVENTS.take n).map (rescoreEvent (tokenize_preferences p)) =
      (MOCK_EVENTS.take n).map (fun e =>
        { e with event_score := score_with_preferences e.event_score 0 }) := by
    intro n
    apply List.map_congr_left
    intro e he
    unfold rescoreEvent
    rw [match_strength_eq_zero (eventMatchText e) _
      (fun t ht => hnomatch t ht e (List.take_subset _ _ he))]
  have hlen : (sortByScoreDesc ((MOCK_EVENTS.take c).map
      (rescoreEvent (tokenize_preferences p)))).length = min c MOCK_EVENTS.length := by
    rw [length_sortByScoreDesc, List.length_map, List.length_take]
  refine ⟨_, generate_suggestions_mock_eq genv hmock c p htok, ?_, hlen, ?_, ?_⟩
  · apply List.ne_nil_of_length_pos
    rw [hlen]
    have h8 : MOCK_EVENTS.length = 8 := by decide
    omega
  · intro e he
    rw [mem_sortByScoreDesc] at he
    obtain ⟨x, hx, rfl⟩ := List.mem_map.mp he
    refine ⟨x, hx, ?_⟩
    unfold rescoreEvent
    rw [match_strength_eq_zero (eventMatchText x) _
      (fun t ht => hnomatch t ht x (List.take_subset _ _ hx))]
  · intro hc8
    rw [hmapeq c, List.take_of_length_le hc8]
    exact sortByScoreDesc_no_match_names

/-- Witness for the amended C6: count 10 (above the pool size) with the
non-matching token "zzzz" returns all 8 candidates in
baseline-descending order. -/
theorem C6_amended_no_match_returns_truncated_baseline_pool_witness :
    ∃ evs, generate_suggestions
        ⟨true, false, ⟨false, .error "w", .error "f", .error "e"⟩, "2025-08-01", [],
          fun _ _ => .error "unused"⟩ 10 (some "zzzz") = .ok evs ∧
      evs ≠ [] ∧
      evs.map Event.name =
        [ "Sunrise Arthurs Seat Hike", "Portobello Beach Cleanup", "Leith Street Food Market"
        , "Grassmarket Storytelling Night", "Stockbridge Farmers Market", "Meadows Community Yoga"
        , "Calton Hill Sketch Walk", "Water of Leith Cycle" ] := by
  obtain ⟨evs, h1, h2, -, -, h5⟩ := C6_amended_no_match_returns_truncated_baseline_pool
    ⟨true, false, ⟨false, .error "w", .error "f", .error "e"⟩, "2025-08-01", [],
      fun _ _ => .error "unused"⟩ rfl 10 (by decide) (some "zzzz") (by decide) (by decide)
  exact ⟨evs, h1, h2, h5 (by decide)⟩
